import Mathlib

/-!
Verification development for the UltraDownloader client (src/Interface.jsx).

The JavaScript source is shallowly embedded: JS numbers are modelled as exact
rationals, nullable fields as `Option`, fallible operations (JSON parsing,
HTTP calls, the clipboard read) as `Except`/`Option`-valued inputs, and the
React state slices as explicit structures threaded through pure transition
functions.  String processing (trimming, lowercasing, substring search, the
URL-literal scan) is implemented over `List Char` so that all definitions
evaluate inside the kernel.  `setTimeout` side effects are modelled as an
explicit list of scheduled timer actions returned next to the new state.
-/

/-! ## String helpers (JS semantics, evaluated over `List Char`) -/

/-- ASCII whitespace recognised by this embedding of JS `trim` and the `\s`
character class (space, tab, newline, carriage return, vertical tab, form
feed).  The source only ever meets ASCII whitespace here. -/
def isSpaceChar (c : Char) : Bool :=
  c = ' ' || c = '\t' || c = '\n' || c = '\r' || c = '\x0b' || c = '\x0c'

/-- Strip leading and trailing whitespace from a character list. -/
def trimChars (cs : List Char) : List Char :=
  ((cs.dropWhile isSpaceChar).reverse.dropWhile isSpaceChar).reverse

/-- JS `String.prototype.trim`. -/
def jsTrim (s : String) : String :=
  String.mk (trimChars s.data)

/-- JS `String.prototype.toLowerCase` (ASCII range, as used by the source). -/
def strToLower (s : String) : String :=
  String.mk (s.data.map Char.toLower)

/-- Does `cs` start with `pat` (exact characters)? -/
def startsWithList : List Char → List Char → Bool
  | [], _ => true
  | _ :: _, [] => false
  | p :: ps, c :: cs => p = c && startsWithList ps cs

/-- Does `cs` contain `pat` as a contiguous run? -/
def hasSubList (pat : List Char) : List Char → Bool
  | [] => startsWithList pat []
  | c :: cs => startsWithList pat (c :: cs) || hasSubList pat cs

/-- Case-sensitive substring test on strings. -/
def hasSub (s pat : String) : Bool :=
  hasSubList pat.data s.data

/-- Case-insensitive substring test: the embedding of a JS
`/pat/i.test(s)` where `pat` is a plain literal. -/
def containsCI (s pat : String) : Bool :=
  hasSubList (pat.data.map Char.toLower) (s.data.map Char.toLower)

/-- JS truthiness of an optional string (`undefined` and `""` are falsy). -/
def optStrTruthy : Option String → Bool
  | some s => s ≠ ""
  | none => false

/-- JS truthiness of an optional number (`undefined` and `0` are falsy). -/
def optNumTruthy : Option ℚ → Bool
  | some n => n ≠ 0
  | none => false

/-- JS `a || b` on optional strings: `b` when `a` is absent or empty. -/
def jsOrStr (a b : Option String) : Option String :=
  if optStrTruthy a then a else b

/-- JS `Math.round`: round half toward positive infinity. -/
def jsRound (q : ℚ) : ℤ := ⌊q + 1 / 2⌋

/-! ## URL extraction (`parseUrlsFromText`)

The source scans every line with the global regex `(https?:\/\/[^\s<>"]+)/gi`,
collects matches into an insertion-ordered `Set`, and returns them as an
array.  The scan below mirrors that: at each position try to match the
scheme case-insensitively, then take the maximal run of non-delimiter
characters; on a match resume after it, otherwise advance one character. -/

/-- Characters that terminate a URL literal: the complement of the regex
class `[^\s<>"]`. -/
def isUrlStopChar (c : Char) : Bool :=
  isSpaceChar c || c = '<' || c = '>' || c = '"'

/-- If `cs` starts with `pat` compared case-insensitively, return the
matched original characters and the remainder. -/
def stripCI : List Char → List Char → Option (List Char × List Char)
  | [], cs => some ([], cs)
  | _ :: _, [] => none
  | p :: ps, c :: cs =>
    if c.toLower = p.toLower then
      match stripCI ps cs with
      | some (m, r) => some (c :: m, r)
      | none => none
    else none

/-- Try to match `https?:\/\/[^\s<>"]+` at the head of `cs`; on success
return the matched URL characters and the rest of the input. -/
def matchUrlAt (cs : List Char) : Option (List Char × List Char) :=
  match stripCI "http".data cs with
  | none => none
  | some (m1, r1) =>
    let sPart := stripCI "s".data r1
    let m2 := match sPart with | some (ms, _) => ms | none => []
    let r2 := match sPart with | some (_, rs) => rs | none => r1
    match stripCI "://".data r2 with
    | none => none
    | some (m3, r3) =>
      let body := r3.takeWhile (fun c => !isUrlStopChar c)
      if body.isEmpty then none
      else some (m1 ++ m2 ++ m3 ++ body, r3.drop body.length)

/-- Global-regex scan of one line; `fuel` bounds the recursion and is
instantiated with the line length (every step consumes at least one
character). -/
def scanUrlsAux : Nat → List Char → List (List Char)
  | 0, _ => []
  | _ + 1, [] => []
  | fuel + 1, c :: cs =>
    match matchUrlAt (c :: cs) with
    | some (url, rest) => url :: scanUrlsAux fuel rest
    | none => scanUrlsAux fuel cs

/-- Split on newline characters (`\r` is removed by the per-line trim,
matching the source's split on `\r?\n`). -/
def splitLinesAux : List Char → List Char → List (List Char)
  | [], acc => [acc.reverse]
  | c :: cs, acc =>
    if c = '\n' then acc.reverse :: splitLinesAux cs []
    else splitLinesAux cs (c :: acc)

/-- Keep the first occurrence of each element: the JS `Set` insertion order. -/
def dedupFirst (l : List String) : List String :=
  l.foldl (fun acc x => if acc.contains x then acc else acc ++ [x]) []

/-- `parseUrlsFromText` from the source: split into trimmed non-empty lines,
scan each for URL literals, and deduplicate preserving first occurrence. -/
def parseUrlsFromText (text : String) : List String :=
  let lines := ((splitLinesAux text.data []).map trimChars).filter (fun l => !l.isEmpty)
  let found := (lines.map (fun l => scanUrlsAux l.length l)).flatten
  dedupFirst (found.map (fun cs => String.mk cs))

/-! ## Custom-name sanitation (`sanitizeCustomName`) -/

/-- Is `c` removed by the filter `[<>:"/\\|?*\x00-\x1F]`? -/
def isBannedNameChar (c : Char) : Bool :=
  c = '<' || c = '>' || c = ':' || c = '"' || c = '/' || c = '\\' ||
  c = '|' || c = '?' || c = '*' || c.toNat < 32

/-- Replace every maximal whitespace run by a single space (JS
`replace(/\s+/g, " ")`). -/
def collapseWs : List Char → List Char
  | [] => []
  | [c] => if isSpaceChar c then [' '] else [c]
  | c :: c2 :: cs =>
    if isSpaceChar c then
      if isSpaceChar c2 then collapseWs (c2 :: cs)
      else ' ' :: collapseWs (c2 :: cs)
    else c :: collapseWs (c2 :: cs)

/-- `sanitizeCustomName` from the source: strip filesystem-unsafe
characters, collapse whitespace, trim, strip trailing dots, reject the
empty result, truncate to 120 characters. -/
def sanitizeCustomName (value : String) : Option String :=
  if value = "" then none
  else
    let cleaned :=
      ((trimChars ((collapseWs (value.data.filter (fun c => !isBannedNameChar c))))).reverse.dropWhile
        (fun c => c = '.')).reverse
    if cleaned.isEmpty then none
    else some (String.mk (cleaned.take 120))

/-! ## Provider classifier (`detectProvider`) -/

/-- `detectProvider` from the source: trimmed lowercase input, fixed
substring patterns, first match wins. -/
def detectProvider (raw : String) : Option String :=
  if raw = "" then none
  else
    let value := strToLower (jsTrim raw)
    if value = "" then none
    else if hasSub value "instagram.com/" then some "instagram"
    else if hasSub value "facebook.com/" || hasSub value "fb.watch/" then some "facebook"
    else if hasSub value "twitter.com/" || hasSub value "x.com/" then some "twitter"
    else if hasSub value "youtube.com/" || hasSub value "youtu.be/" ||
            hasSub value "music.youtube.com/" then some "youtube"
    else if hasSub value "dailymotion.com" || hasSub value "dai.ly" then some "dailymotion"
    else none

/-- `PROVIDERS_WITH_LOCKED_OPTIONS.has(linkProvider)` (`has(null)` is false). -/
def lockedProvider : Option String → Bool
  | some p => ["instagram", "facebook", "twitter"].contains p
  | none => false

/-- The provider shown for the active link: `null` in batch mode, otherwise
`detectProvider(url)` (the effect at the `[url, isBatchMode]` dependency). -/
def linkProviderOf (isBatchMode : Bool) (url : String) : Option String :=
  if isBatchMode then none else detectProvider url

/-- The user-facing download options held in component state. -/
structure OptionsState where
  format : String
  quality : ℤ
  resolution : String
  deriving DecidableEq

/-- The locked-provider effect (lines forcing mp4 / best / 192): each field
is rewritten only when it differs from the forced value. -/
def applyLockedOptions (linkProvider : Option String) (o : OptionsState) : OptionsState :=
  if lockedProvider linkProvider then
    { format := if o.format ≠ "mp4" then "mp4" else o.format,
      quality := if o.quality ≠ 192 then 192 else o.quality,
      resolution := if o.resolution ≠ "best" then "best" else o.resolution }
  else o

/-- `isAudioOnly`: the selected format is one of the audio containers. -/
def isAudioOnly (format : String) : Bool :=
  ["mp3", "m4a", "wav", "flac"].contains format

/-- `getOptions` from the source: audio-only downloads force resolution to
"best" in the outgoing request. -/
def getOptions (o : OptionsState) : OptionsState :=
  { o with resolution := if isAudioOnly o.format then "best" else o.resolution }

/-! ## Compression estimator -/

/-- The declared resolution order (the `value` column of
`RESOLUTION_OPTIONS`). -/
def RESOLUTION_OPTIONS : List String :=
  ["auto", "2160p", "1440p", "1080p", "720p", "480p", "360p", "240p"]

/-- The factor table `RESOLUTION_MULTIPLIERS`. -/
def RESOLUTION_MULTIPLIERS : List (String × ℚ) :=
  [("auto", 1), ("2160p", 11 / 10), ("1440p", 1), ("1080p", 82 / 100),
   ("720p", 58 / 100), ("480p", 42 / 100), ("360p", 3 / 10), ("240p", 22 / 100)]

/-- `RESOLUTION_MULTIPLIERS[r] ?? 1`. -/
def resFactor (r : String) : ℚ :=
  (List.lookup r RESOLUTION_MULTIPLIERS).getD 1

/-- `DISCORD_TARGET_BYTES = 9 * 1024 * 1024`. -/
def DISCORD_TARGET_BYTES : ℚ := 9 * 1024 * 1024

/-- `estimatedFinalSize`: 0 without a (non-empty) source file, otherwise
`size * resolutionFactor * max(0.01, 1 - clamp(percent, 0, 99) / 100)`. -/
def estimatedFinalSize (size : ℚ) (compressResolution : String) (compressionPercent : ℚ) : ℚ :=
  if size = 0 then 0
  else size * resFactor compressResolution *
    max (1 / 100) (1 - min 99 (max 0 compressionPercent) / 100)

/-- `reductionPercent`: the displayed reduction, 0 when either size is
falsy, otherwise `clamp(round(100 - est/size*100), 0, 99)`. -/
def reductionPercent (size est : ℚ) : ℤ :=
  if size = 0 ∨ est = 0 then 0
  else max 0 (min 99 (jsRound (100 - est / size * 100)))

/-- The loop body of `applyDiscordPreset` over the remaining resolution
options: skip options whose unreduced estimate misses the budget, select
the first fit with the computed clamped percent, fall back to
`("240p", 99)`. -/
def discordStep (fileSize : ℚ) : List String → String × ℤ
  | [] => ("240p", 99)
  | opt :: rest =>
    let multiplier := resFactor opt
    if fileSize * multiplier * (1 / 100) > DISCORD_TARGET_BYTES then
      discordStep fileSize rest
    else
      let ratio := min 1 (DISCORD_TARGET_BYTES / (fileSize * multiplier))
      let computed := jsRound (100 * (1 - ratio))
      (opt, max 0 (min 99 computed))

/-- `applyDiscordPreset`: `none` models the early return without a source
file; otherwise the selected `(resolution, percent)` pair. -/
def applyDiscordPreset (fileSize : ℚ) : Option (String × ℤ) :=
  if fileSize = 0 then none
  else some (discordStep fileSize RESOLUTION_OPTIONS)

/-- The target-fit search as the specification words it: the first option
in declared order whose unreduced estimate fits the budget, with percent
`clamp(round(100 * (1 - min(1, target / (size * factor)))), 0, 99)`;
`("240p", 99)` when every option misses. -/
def discordSearchSpec (fileSize : ℚ) : String × ℤ :=
  match RESOLUTION_OPTIONS.find?
      (fun r => fileSize * resFactor r * (1 / 100) ≤ DISCORD_TARGET_BYTES) with
  | some r =>
    (r, max 0 (min 99 (jsRound (100 *
      (1 - min 1 (DISCORD_TARGET_BYTES / (fileSize * resFactor r)))))))
  | none => ("240p", 99)

/-! ## Job Channel: frames and the two job-state slices

A WebSocket frame is a JSON object; the fields the handler reads are
modelled as optional values (`none` = absent).  A field of the wrong JS
type is treated as absent, matching the handler's `typeof` guards for
numbers; string fields are only inspected behind truthiness guards, so
absent and non-string coincide. -/

/-- The fields of an inbound frame read by `ws.onmessage`. -/
structure Frame where
  task : Option String
  progress : Option ℚ
  pct : Option ℚ
  percent : Option ℚ
  status : Option String
  saved_path : Option String
  path : Option String
  output_path : Option String
  file : Option String
  queue_finished : Bool
  target_dir : Option String
  final_size : Option ℚ
  filename : Option String
  final_size_human : Option String
  target_size_bytes : Option ℚ
  target_size_human : Option String
  deriving DecidableEq

/-- A frame with every field absent (the parse of `"{}"`). -/
def emptyFrame : Frame :=
  { task := none, progress := none, pct := none, percent := none, status := none,
    saved_path := none, path := none, output_path := none, file := none,
    queue_finished := false, target_dir := none, final_size := none,
    filename := none, final_size_human := none, target_size_bytes := none,
    target_size_human := none }

/-- The download job-state slice: `progress`, `status`, `busy`, `savedPath`. -/
structure DownloadSlice where
  progress : ℚ
  status : String
  busy : Bool
  savedPath : Option String
  deriving DecidableEq

/-- The accumulated compression result object (`compressResult`). -/
structure CompressResult where
  output_path : Option String
  filename : Option String
  final_size : Option ℚ
  final_size_human : Option String
  target_size_bytes : Option ℚ
  target_size_human : Option String
  deriving DecidableEq

/-- The compression job-state slice: `compressProgress`, `compressStatus`,
`compressBusy`, `compressResult`. -/
structure CompressSlice where
  progress : ℚ
  status : String
  busy : Bool
  result : Option CompressResult
  deriving DecidableEq

/-- The two independent job-state slices touched by the channel. -/
structure AppState where
  dl : DownloadSlice
  comp : CompressSlice
  deriving DecidableEq

/-- The `setTimeout` side effects the handler schedules (both use the 3s
settle delay); they fire after frame processing returns. -/
inductive TimerAction
  | settle (sp : String)
  | queueSettle (dir : Option String)
  deriving DecidableEq

/-! ### `formatBytes` (used when a compressor frame carries a numeric size
but no human-readable size). -/

/-- Divide by 1024 while the value is at least 1024 and a larger unit
remains; returns the scaled value and the number of divisions. -/
def fbReduce (v : ℚ) : Nat → ℚ × Nat
  | 0 => (v, 0)
  | room + 1 =>
    if v ≥ 1024 then
      let (v', n) := fbReduce (v / 1024) room
      (v', n + 1)
    else (v, 0)

/-- Left-pad a digit string with zeros to length `d`. -/
def padZeros (s : String) (d : Nat) : String :=
  String.mk (List.replicate (d - s.length) '0') ++ s

/-- JS `Number.prototype.toFixed` for the nonnegative values produced by
`formatBytes`. -/
def toFixedQ (q : ℚ) (d : Nat) : String :=
  let scaled : ℤ := ⌊q * (10 : ℚ) ^ d + 1 / 2⌋
  let n := scaled.natAbs
  if d = 0 then toString n
  else toString (n / 10 ^ d) ++ "." ++ padZeros (toString (n % 10 ^ d)) d

/-- The unit label after `idx` divisions by 1024. -/
def fbUnit : Nat → String
  | 0 => "B"
  | 1 => "KB"
  | 2 => "MB"
  | 3 => "GB"
  | _ => "TB"

/-- `formatBytes` from the source. -/
def formatBytes (bytes : ℚ) : String :=
  if bytes ≤ 0 then "0 MB"
  else
    let p := fbReduce bytes 4
    let digits := if p.2 = 0 then 0 else if p.1 ≥ 10 then 1 else 2
    toFixedQ p.1 digits ++ " " ++ fbUnit p.2

/-! ### Frame processing -/

/-- `data.progress ?? data.pct ?? data.percent`: the first present of the
three aliases (nullish coalescing, so a present `0` wins). -/
def firstAliasProgress (f : Frame) : Option ℚ :=
  match f.progress with
  | some p => some p
  | none =>
    match f.pct with
    | some p => some p
    | none => f.percent

/-- Lines 1010-1011: clamp the alias progress into `[0,100]` and store it;
no write when no numeric alias is present. -/
def applyProgressAlias (f : Frame) (st : DownloadSlice) : DownloadSlice :=
  match firstAliasProgress f with
  | some p => { st with progress := max 0 (min 100 p) }
  | none => st

/-- Line 1012: a truthy status string overwrites `status`. -/
def applyStatusText (f : Frame) (st : DownloadSlice) : DownloadSlice :=
  if optStrTruthy f.status then { st with status := f.status.getD "" } else st

/-- Lines 1014-1018: a truthy status matching `/cancelad/i` resets the job
(busy off, progress 0, pending saved path cleared). -/
def applyCancelCheck (f : Frame) (st : DownloadSlice) : DownloadSlice :=
  if optStrTruthy f.status && containsCI (f.status.getD "") "cancelad" then
    { st with busy := false, progress := 0, savedPath := none }
  else st

/-- Lines 1020-1027: the terminal path aliases; a truthy result outside
batch mode schedules the 3s settle timer. -/
def settleTimers (f : Frame) (isBatchMode : Bool) : List TimerAction :=
  let sp := jsOrStr (jsOrStr (jsOrStr f.saved_path f.path) f.output_path) f.file
  if optStrTruthy sp && !isBatchMode then [TimerAction.settle (sp.getD "")] else []

/-- Lines 1029-1037 (synchronous part): `queue_finished` forces progress to
100 and status to "Concluindo". -/
def applyQueueFinished (f : Frame) (st : DownloadSlice) : DownloadSlice :=
  if f.queue_finished then { st with progress := 100, status := "Concluindo" } else st

/-- The timer scheduled by the `queue_finished` branch. -/
def queueTimers (f : Frame) : List TimerAction :=
  if f.queue_finished then [TimerAction.queueSettle f.target_dir] else []

/-- The download branch of `ws.onmessage`, in source order. -/
def processDownloadFrame (f : Frame) (isBatchMode : Bool) (st : DownloadSlice) :
    DownloadSlice × List TimerAction :=
  (applyQueueFinished f (applyCancelCheck f (applyStatusText f (applyProgressAlias f st))),
    settleTimers f isBatchMode ++ queueTimers f)

/-- The merge of a result-bearing compressor frame into the accumulated
result object (`setCompressResult` updater). -/
def mergeCompressResult (f : Frame) (prev : Option CompressResult) : CompressResult :=
  let finalSize :=
    match f.final_size with
    | some n => some n
    | none => prev.bind (fun r => r.final_size)
  { output_path := jsOrStr (jsOrStr f.saved_path f.output_path) (prev.bind (fun r => r.output_path)),
    filename := jsOrStr f.filename (prev.bind (fun r => r.filename)),
    final_size := finalSize,
    final_size_human :=
      jsOrStr (jsOrStr f.final_size_human (prev.bind (fun r => r.final_size_human)))
        (finalSize.map formatBytes),
    target_size_bytes :=
      match f.target_size_bytes with
      | some n => some n
      | none => prev.bind (fun r => r.target_size_bytes),
    target_size_human :=
      match f.target_size_human with
      | some s => some s
      | none => prev.bind (fun r => r.target_size_human) }

/-- The compressor branch of `ws.onmessage` (`task === "compressor"`). -/
def processCompressorFrame (f : Frame) (c : CompressSlice) : CompressSlice :=
  let c :=
    match f.progress with
    | some p => { c with progress := max 0 (min 100 p) }
    | none => c
  let c :=
    if optStrTruthy f.status then
      let s := f.status.getD ""
      let c := { c with status := s }
      let c := if containsCI s "erro" then { c with busy := false } else c
      let c := if containsCI s "conclu" then { c with busy := false } else c
      if containsCI s "cancelad" then { c with busy := false, progress := 0 } else c
    else c
  if optStrTruthy f.saved_path || optStrTruthy f.output_path ||
      optNumTruthy f.final_size || optStrTruthy f.filename then
    { c with result := some (mergeCompressResult f c.result) }
  else c

/-- One parsed frame folded into the two slices: `compressor`-tagged frames
update the compression slice, every other frame the download slice. -/
def processFrame (f : Frame) (isBatchMode : Bool) (st : AppState) :
    AppState × List TimerAction :=
  if f.task = some "compressor" then
    ({ st with comp := processCompressorFrame f st.comp }, [])
  else
    let r := processDownloadFrame f isBatchMode st.dl
    ({ st with dl := r.1 }, r.2)

/-- `ws.onmessage`: the payload is parsed inside a `try`; a parse error is
caught, logged and changes nothing (modelled by the `Except.error` case).
The function is total, embedding the fact that no exception escapes the
handler. -/
def wsOnMessage (msg : Except String Frame) (isBatchMode : Bool) (st : AppState) :
    AppState × List TimerAction :=
  match msg with
  | Except.error _ => (st, [])
  | Except.ok f => processFrame f isBatchMode st

/-! ## Clipboard watcher (`pollClipboard`) -/

/-- `clipboardStateRef`: the last observed raw text and the last extracted
link. -/
structure ClipRef where
  raw : String
  link : String
  deriving DecidableEq

/-- The watcher's host allow-list regex
`/(youtube|youtu.be|...)/i` as a substring test. -/
def allowedHostsTest (candidate : String) : Bool :=
  ["youtube.com", "youtu.be", "music.youtube.com", "dailymotion.com", "dai.ly",
   "instagram.com", "facebook.com", "fb.watch", "twitter.com", "x.com",
   "m.facebook.com"].any (fun pat => containsCI candidate pat)

/-- The body of one poll tick after a successful clipboard read: `field` is
the link input's current value (`urlRef.current`); the returned `Option` is
the `setUrl` call, `none` when the watcher surfaces nothing. -/
def pollClipboardCore (cs : ClipRef) (field : String) (text : String) :
    ClipRef × Option String :=
  if jsTrim text = "" ∨ jsTrim text = cs.raw then (cs, none)
  else
    match (parseUrlsFromText (jsTrim text)).find? allowedHostsTest with
    | none => ({ cs with raw := jsTrim text }, none)
    | some m =>
      if cs.link = m then ({ cs with raw := jsTrim text }, none)
      else if field ≠ "" ∧ field = m then
        ({ cs with raw := jsTrim text, link := m }, none)
      else ({ cs with raw := jsTrim text, link := m }, some m)

/-- One full poll tick of `pollClipboard`: the four gate conditions (view,
batch mode, visibility, focus) skip the tick; a failed clipboard read is
caught (logged once per failure streak, a logging detail not modelled) and
changes nothing. -/
def pollClipboard (viewIsDownloader batchMode visible focused : Bool)
    (cs : ClipRef) (field : String) (fetched : Except String String) :
    ClipRef × Option String :=
  if !viewIsDownloader then (cs, none)
  else if batchMode then (cs, none)
  else if !visible then (cs, none)
  else if !focused then (cs, none)
  else
    match fetched with
    | Except.error _ => (cs, none)
    | Except.ok text => pollClipboardCore cs field text

/-! ## Job controller (`startDownload`, `cancelDownload`,
`cancelCompression`)

HTTP calls are modelled by a request trace (`Req`) plus oracle inputs for
the backend's answers; toasts by a list of notification messages. -/

/-- The HTTP requests the controller can issue. -/
inductive Req
  | selectDir
  | download (url targetDir : String) (options : OptionsState) (filename : Option String)
  | queue (urls : List String) (targetDir : String) (options : OptionsState)
  | cancel
  deriving DecidableEq

/-- The backend's answer to `POST /select-dir`: a transport/HTTP failure,
a response without a (truthy) directory, or a directory string. -/
inductive DirResp
  | httpError
  | okNone
  | okDir (dir : String)
  deriving DecidableEq

/-- The directory obtained from a `/select-dir` response (`js?.dir ||
js?.directory`, with `""` falsy). -/
def dirOf : DirResp → Option String
  | DirResp.okDir d => if d = "" then none else some d
  | _ => none

/-- The full UI state read and written by `startDownload`. -/
structure UiState where
  url : String
  batchUrls : String
  isBatchMode : Bool
  dl : DownloadSlice
  savedDir : Option String
  options : OptionsState
  deriving DecidableEq

/-- `isDownloading = busy || (progress > 0 && progress < 100)`. -/
def isDownloading (st : UiState) : Bool :=
  st.dl.busy || (decide (0 < st.dl.progress) && decide (st.dl.progress < 100))

/-- The outcome of `chooseSaveDir`: updated state, returned directory,
issued requests and notifications. -/
structure DirOutcome where
  st : UiState
  dir : Option String
  reqs : List Req
  notes : List String

/-- `chooseSaveDir`: always issues `POST /select-dir`; stores and returns
the directory on success, returns `null` on a missing directory, and on an
HTTP/transport failure notifies and returns `null`. -/
def chooseSaveDir (resp : DirResp) (st : UiState) : DirOutcome :=
  match resp with
  | DirResp.httpError =>
    ⟨st, none, [Req.selectDir], ["Não foi possível abrir o seletor de pasta."]⟩
  | DirResp.okNone => ⟨st, none, [Req.selectDir], []⟩
  | DirResp.okDir d =>
    if d = "" then ⟨st, none, [Req.selectDir], []⟩
    else ⟨{ st with savedDir := some d }, some d, [Req.selectDir], []⟩

/-- The custom-name prompt step of `startDownload` (single mode only):
`promptResp` is the `window.prompt` return, `none` when dismissed.  An
invalid non-blank name falls back to no custom name with a warning. -/
def customNameOf (isBatchMode : Bool) (promptResp : Option String) :
    Option String × List String :=
  if isBatchMode then (none, [])
  else
    match promptResp with
    | none => (none, [])
    | some rawName =>
      match sanitizeCustomName rawName with
      | some s => (some s, [])
      | none =>
        if jsTrim rawName ≠ "" then
          (none, ["Nome personalizado invalido; usando titulo original."])
        else (none, [])

/-- The outcome of one `startDownload` invocation. -/
structure StartOutcome where
  st : UiState
  reqs : List Req
  notes : List String
  deriving DecidableEq

/-- `startDownload`, with the backend's answers as oracle inputs
(`dirResp` for `/select-dir`, `promptResp` for the name prompt, `startOk`
for the `/download` or `/queue` response).  The guard returns immediately
while a download is active; otherwise progress and the pending result are
reset and busy is set before the directory is chosen, and the URL / batch
validation runs only after `chooseSaveDir` returns a directory. -/
def startDownload (dirResp : DirResp) (promptResp : Option String) (startOk : Bool)
    (st : UiState) : StartOutcome :=
  if isDownloading st then ⟨st, [], []⟩
  else
    let options := getOptions st.options
    let st1 := { st with dl := { st.dl with progress := 0, savedPath := none, busy := true } }
    let c := chooseSaveDir dirResp st1
    match c.dir with
    | none =>
      ⟨{ c.st with dl := { c.st.dl with busy := false, status := "Aguardando link..." } },
        c.reqs, c.notes⟩
    | some targetDir =>
      let name := customNameOf st.isBatchMode promptResp
      if st.isBatchMode then
        let urls := parseUrlsFromText st.batchUrls
        if urls.length = 0 then
          ⟨{ c.st with dl := { c.st.dl with busy := false } }, c.reqs,
            c.notes ++ name.2 ++ ["Cole links válidos na área de texto!"]⟩
        else
          let st3 := { c.st with dl := { c.st.dl with
            status := "Adicionando " ++ toString urls.length ++ " links à fila..." } }
          let req := Req.queue urls targetDir options
          if startOk then
            ⟨{ st3 with batchUrls := "", dl := { st3.dl with status := "Processando fila..." } },
              c.reqs ++ [req],
              c.notes ++ name.2 ++ [toString urls.length ++ " downloads iniciados!"]⟩
          else
            ⟨{ st3 with dl := { st3.dl with busy := false } }, c.reqs ++ [req],
              c.notes ++ name.2 ++ ["Falha ao adicionar à fila."]⟩
      else
        if jsTrim st.url = "" then
          ⟨{ c.st with dl := { c.st.dl with busy := false } }, c.reqs,
            c.notes ++ name.2 ++ ["Cole um link válido!"]⟩
        else
          let st3 := { c.st with dl := { c.st.dl with status := "Preparando..." } }
          let req := Req.download (jsTrim st.url) targetDir options name.1
          if startOk then
            ⟨{ st3 with url := "", dl := { st3.dl with status := "Baixando..." } },
              c.reqs ++ [req], c.notes ++ name.2 ++ ["Download iniciado!"]⟩
          else
            ⟨{ st3 with dl := { st3.dl with busy := false } }, c.reqs ++ [req],
              c.notes ++ name.2 ++ ["Falha ao iniciar o download."]⟩

/-- `cancelDownload`: issue `POST /cancel`; on success only the download
status text changes, on a failed request only a toast is emitted. -/
def cancelDownload (ok : Bool) (st : AppState) : AppState × List Req × List String :=
  if ok then
    ({ st with dl := { st.dl with status := "Cancelando..." } }, [Req.cancel], [])
  else (st, [Req.cancel], ["Falha ao cancelar."])

/-- `cancelCompression`: issue `POST /cancel`; on success only the
compression status text changes. -/
def cancelCompression (ok : Bool) (st : AppState) : AppState × List Req × List String :=
  if ok then
    ({ st with comp := { st.comp with status := "Cancelando compressão..." } }, [Req.cancel], [])
  else (st, [Req.cancel], ["Falha ao cancelar a compressão."])

/-! ## Concrete states and frames used by witnesses and counterexamples -/

/-- The job-state slices as initialised by the component. -/
def initialAppState : AppState :=
  { dl := { progress := 0, status := "Aguardando link...", busy := false, savedPath := none },
    comp := { progress := 0, status := "Selecione um vídeo MP4 para começar.",
              busy := false, result := none } }

/-- A mid-download state (progress 37, busy). -/
def runningAppState : AppState :=
  { dl := { progress := 37, status := "Baixando...", busy := true, savedPath := none },
    comp := { progress := 0, status := "Selecione um vídeo MP4 para começar.",
              busy := false, result := none } }

/-- A frame carrying a cancelled status together with the queue-completion
flag. -/
def cancelQueueFrame : Frame :=
  { emptyFrame with status := some "Download cancelado", queue_finished := true }

/-- A frame carrying a cancelled status together with a numeric progress
field. -/
def cancelProgressFrame : Frame :=
  { emptyFrame with status := some "Download cancelado", progress := some 55 }

/-- A download frame whose only payload is an out-of-range progress of 150. -/
def progressFrame150 : Frame :=
  { emptyFrame with progress := some 150 }

/-- The idle single-mode UI state with an empty link input. -/
def idleUiState : UiState :=
  { url := "", batchUrls := "", isBatchMode := false,
    dl := { progress := 0, status := "Aguardando link...", busy := false, savedPath := none },
    savedDir := none,
    options := { format := "mp4", quality := 192, resolution := "best" } }

/-! # Theorems -/

/-! ## Shared helper lemmas -/

theorem applyStatusText_progress (f : Frame) (st : DownloadSlice) :
    (applyStatusText f st).progress = st.progress := by
  unfold applyStatusText; split <;> rfl

theorem applyStatusText_busy (f : Frame) (st : DownloadSlice) :
    (applyStatusText f st).busy = st.busy := by
  unfold applyStatusText; split <;> rfl

theorem applyStatusText_savedPath (f : Frame) (st : DownloadSlice) :
    (applyStatusText f st).savedPath = st.savedPath := by
  unfold applyStatusText; split <;> rfl

theorem applyProgressAlias_status (f : Frame) (st : DownloadSlice) :
    (applyProgressAlias f st).status = st.status := by
  unfold applyProgressAlias; split <;> rfl

theorem applyProgressAlias_busy (f : Frame) (st : DownloadSlice) :
    (applyProgressAlias f st).busy = st.busy := by
  unfold applyProgressAlias; split <;> rfl

theorem applyProgressAlias_savedPath (f : Frame) (st : DownloadSlice) :
    (applyProgressAlias f st).savedPath = st.savedPath := by
  unfold applyProgressAlias; split <;> rfl

theorem applyProgressAlias_progress_of_alias (f : Frame) (st : DownloadSlice) (p : ℚ)
    (h : firstAliasProgress f = some p) :
    (applyProgressAlias f st).progress = max 0 (min 100 p) := by
  unfold applyProgressAlias; rw [h]

theorem applyCancelCheck_noop (f : Frame) (st : DownloadSlice)
    (h : ∀ s, f.status = some s → containsCI s "cancelad" = false) :
    applyCancelCheck f st = st := by
  unfold applyCancelCheck
  cases hs : f.status with
  | none => simp [optStrTruthy]
  | some s => simp [optStrTruthy, h s hs]

theorem applyQueueFinished_noop (f : Frame) (st : DownloadSlice)
    (h : f.queue_finished = false) :
    applyQueueFinished f st = st := by
  simp [applyQueueFinished, h]

theorem containsCI_empty_cancelad : containsCI "" "cancelad" = false := by decide

theorem processFrame_dl (f : Frame) (isBatchMode : Bool) (st : AppState)
    (h : f.task ≠ some "compressor") :
    (processFrame f isBatchMode st).1.dl =
      applyQueueFinished f (applyCancelCheck f (applyStatusText f (applyProgressAlias f st.dl))) := by
  simp [processFrame, h, processDownloadFrame]

theorem resFactor_auto : resFactor "auto" = 1 := by
  simp [resFactor, RESOLUTION_MULTIPLIERS, List.lookup]
theorem resFactor_2160p : resFactor "2160p" = 11 / 10 := by
  simp [resFactor, RESOLUTION_MULTIPLIERS, List.lookup]
theorem resFactor_1440p : resFactor "1440p" = 1 := by
  simp [resFactor, RESOLUTION_MULTIPLIERS, List.lookup]
theorem resFactor_1080p : resFactor "1080p" = 82 / 100 := by
  simp [resFactor, RESOLUTION_MULTIPLIERS, List.lookup]
theorem resFactor_720p : resFactor "720p" = 58 / 100 := by
  simp [resFactor, RESOLUTION_MULTIPLIERS, List.lookup]
theorem resFactor_480p : resFactor "480p" = 42 / 100 := by
  simp [resFactor, RESOLUTION_MULTIPLIERS, List.lookup]
theorem resFactor_360p : resFactor "360p" = 3 / 10 := by
  simp [resFactor, RESOLUTION_MULTIPLIERS, List.lookup]
theorem resFactor_240p : resFactor "240p" = 22 / 100 := by
  simp [resFactor, RESOLUTION_MULTIPLIERS, List.lookup]

/-! ## C3 -/

/-- C3: a frame whose payload is not valid JSON is swallowed by the
handler's catch: neither job-state slice changes, no timer is scheduled,
and (the handler being a total function) no exception escapes the
channel's message handler. -/
theorem malformed_frame_no_state_change :
    ∀ (e : String) (isBatchMode : Bool) (st : AppState),
      wsOnMessage (Except.error e) isBatchMode st = (st, []) := by
  intro e isBatchMode st
  rfl

/-! ## C4 -/

/-- C4: for every source size, resolution choice in the declared table and
reduction percent, the estimator returns
`S * resolutionFactor(r) * (1 - clamp(p, 0, 99) / 100)`; the factor table
is exactly the declared one, and on the scenario (100 MB source, auto
resolution, 40 percent) the prediction is 60,000,000 bytes with displayed
reduction 40. -/
theorem estimator_formula :
    (∀ (S : ℚ) (r : String) (p : ℚ), 0 ≤ S → r ∈ RESOLUTION_OPTIONS →
      estimatedFinalSize S r p = S * resFactor r * (1 - min 99 (max 0 p) / 100))
    ∧ resFactor "auto" = 1 ∧ resFactor "2160p" = 11 / 10 ∧ resFactor "1440p" = 1
    ∧ resFactor "1080p" = 82 / 100 ∧ resFactor "720p" = 58 / 100
    ∧ resFactor "480p" = 42 / 100 ∧ resFactor "360p" = 3 / 10
    ∧ resFactor "240p" = 22 / 100
    ∧ estimatedFinalSize 100000000 "auto" 40 = 60000000
    ∧ reductionPercent 100000000 (estimatedFinalSize 100000000 "auto" 40) = 40 := by
  have hest : estimatedFinalSize 100000000 "auto" 40 = 60000000 := by
    norm_num [estimatedFinalSize, resFactor, RESOLUTION_MULTIPLIERS, List.lookup]
  refine ⟨?_, resFactor_auto, resFactor_2160p, resFactor_1440p, resFactor_1080p,
    resFactor_720p, resFactor_480p, resFactor_360p, resFactor_240p, hest, ?_⟩
  · intro S r p _ _
    by_cases hS0 : S = 0
    · simp [estimatedFinalSize, hS0]
    · have h99 : min (99 : ℚ) (max 0 p) ≤ 99 := min_le_left _ _
      have hX : (1 : ℚ) / 100 ≤ 1 - min 99 (max 0 p) / 100 := by linarith
      rw [estimatedFinalSize, if_neg hS0, max_eq_right hX]
  · rw [hest]
    norm_num [reductionPercent, jsRound]

/-- C4 witness: the general formula applied at the scenario input. -/
theorem estimator_formula_witness :
    estimatedFinalSize 100000000 "auto" 40 =
      100000000 * resFactor "auto" * (1 - min 99 (max 0 40) / 100) :=
  estimator_formula.1 100000000 "auto" 40 (by norm_num) (by decide)

/-! ## C5 -/

theorem discordStep_eq_find (S : ℚ) (l : List String) :
    discordStep S l =
      (match l.find? (fun r => S * resFactor r * (1 / 100) ≤ DISCORD_TARGET_BYTES) with
        | some r =>
          (r, max 0 (min 99 (jsRound (100 *
            (1 - min 1 (DISCORD_TARGET_BYTES / (S * resFactor r)))))))
        | none => ("240p", 99)) := by
  induction l with
  | nil => rfl
  | cons a rest ih =>
    by_cases h : S * resFactor a * (1 / 100) > DISCORD_TARGET_BYTES
    · have hp : (decide (S * resFactor a * (1 / 100) ≤ DISCORD_TARGET_BYTES)) = false :=
        decide_eq_false (not_le.2 h)
      simp only [discordStep, if_pos h, List.find?_cons, hp, ih]
    · have hp : (decide (S * resFactor a * (1 / 100) ≤ DISCORD_TARGET_BYTES)) = true :=
        decide_eq_true (not_lt.1 h)
      simp only [discordStep, if_neg h, List.find?_cons, hp]

/-- C5: the target-fit search is a deterministic pure function of the
source size, equal to the declared-order first-fit search with percent
`clamp(round(100 * (1 - min(1, target / (S * factor)))), 0, 99)` and
fallback `("240p", 99)`, against the target budget of 9,437,184 bytes;
concretely a 100 MB source selects `("auto", 91)` and a 10 GB source falls
back to `("240p", 99)`. -/
theorem discord_target_fit_search :
    (∀ S : ℚ, 0 < S → applyDiscordPreset S = some (discordSearchSpec S))
    ∧ DISCORD_TARGET_BYTES = 9437184
    ∧ applyDiscordPreset 100000000 = some ("auto", 91)
    ∧ applyDiscordPreset 10000000000 = some ("240p", 99) := by
  refine ⟨?_, by norm_num [DISCORD_TARGET_BYTES], ?_, ?_⟩
  · intro S hS
    rw [applyDiscordPreset, if_neg hS.ne', discordSearchSpec, discordStep_eq_find]
  · rw [applyDiscordPreset, if_neg (by norm_num), RESOLUTION_OPTIONS]
    simp only [discordStep]
    rw [if_neg (by simp [resFactor, RESOLUTION_MULTIPLIERS, List.lookup, DISCORD_TARGET_BYTES]; norm_num)]
    simp [resFactor, RESOLUTION_MULTIPLIERS, List.lookup, DISCORD_TARGET_BYTES, jsRound]; norm_num
  · rw [applyDiscordPreset, if_neg (by norm_num), RESOLUTION_OPTIONS]
    simp only [discordStep]
    rw [if_pos (by simp [resFactor, RESOLUTION_MULTIPLIERS, List.lookup, DISCORD_TARGET_BYTES]; norm_num),
      if_pos (by simp [resFactor, RESOLUTION_MULTIPLIERS, List.lookup, DISCORD_TARGET_BYTES]; norm_num),
      if_pos (by simp [resFactor, RESOLUTION_MULTIPLIERS, List.lookup, DISCORD_TARGET_BYTES]; norm_num),
      if_pos (by simp [resFactor, RESOLUTION_MULTIPLIERS, List.lookup, DISCORD_TARGET_BYTES]; norm_num),
      if_pos (by simp [resFactor, RESOLUTION_MULTIPLIERS, List.lookup, DISCORD_TARGET_BYTES]; norm_num),
      if_pos (by simp [resFactor, RESOLUTION_MULTIPLIERS, List.lookup, DISCORD_TARGET_BYTES]; norm_num),
      if_pos (by simp [resFactor, RESOLUTION_MULTIPLIERS, List.lookup, DISCORD_TARGET_BYTES]; norm_num),
      if_pos (by simp [resFactor, RESOLUTION_MULTIPLIERS, List.lookup, DISCORD_TARGET_BYTES]; norm_num)]

/-- C5 witness: the search equation applied at the 100 MB source. -/
theorem discord_target_fit_search_witness :
    applyDiscordPreset 100000000 = some (discordSearchSpec 100000000) :=
  discord_target_fit_search.1 100000000 (by norm_num)

/-! ## C1 -/

/-- C1: for a download-class frame the numeric progress value is taken
from the first present of the aliases `progress`, `pct`, `percent`, and
the progress stored by the frame is `clamp(value, 0, 100)`: for `p` in
`[-50, 150]` the stored value lies in `[0, 100]`, equals `p` inside
`[0, 100]` and saturates at the ends.  (The frame is assumed not to carry
a cancelled status or the queue-completion flag, whose later resets
overwrite the progress write; those interactions are the subject of the
cancellation claim.) -/
theorem progress_alias_clamp :
    (∀ (f : Frame) (q : ℚ),
      (f.progress = some q → firstAliasProgress f = some q)
      ∧ (f.progress = none → f.pct = some q → firstAliasProgress f = some q)
      ∧ (f.progress = none → f.pct = none → firstAliasProgress f = f.percent))
    ∧ (∀ (f : Frame) (isBatchMode : Bool) (st : AppState) (p : ℚ),
      f.task ≠ some "compressor" →
      firstAliasProgress f = some p →
      (∀ s, f.status = some s → containsCI s "cancelad" = false) →
      f.queue_finished = false →
      -50 ≤ p → p ≤ 150 →
      (processFrame f isBatchMode st).1.dl.progress = max 0 (min 100 p)
      ∧ 0 ≤ (processFrame f isBatchMode st).1.dl.progress
      ∧ (processFrame f isBatchMode st).1.dl.progress ≤ 100
      ∧ (0 ≤ p → p ≤ 100 → (processFrame f isBatchMode st).1.dl.progress = p)
      ∧ (p < 0 → (processFrame f isBatchMode st).1.dl.progress = 0)
      ∧ (100 < p → (processFrame f isBatchMode st).1.dl.progress = 100)) := by
  constructor
  · intro f q
    refine ⟨fun h => ?_, fun h1 h2 => ?_, fun h1 h2 => ?_⟩ <;>
      simp [firstAliasProgress, *]
  · intro f isBatchMode st p htask halias hnc hqf hlo hhi
    have key : (processFrame f isBatchMode st).1.dl.progress = max 0 (min 100 p) := by
      rw [processFrame_dl f isBatchMode st htask,
        applyQueueFinished_noop _ _ hqf, applyCancelCheck_noop _ _ hnc,
        applyStatusText_progress, applyProgressAlias_progress_of_alias _ _ _ halias]
    refine ⟨key, ?_, ?_, ?_, ?_, ?_⟩
    · rw [key]; exact le_max_left _ _
    · rw [key]; exact max_le (by norm_num) (min_le_left _ _)
    · intro h0 h100
      rw [key, min_eq_right h100, max_eq_right h0]
    · intro hneg
      rw [key, min_eq_right (le_trans hneg.le (by norm_num)), max_eq_left hneg.le]
    · intro hbig
      rw [key, min_eq_left hbig.le]
      exact max_eq_right (by norm_num)

/-- C1 witness: a frame carrying only `progress = 150` stores a progress
of 100 (saturation at the upper end). -/
theorem progress_alias_clamp_witness :
    (processFrame progressFrame150 false initialAppState).1.dl.progress = 100 :=
  (progress_alias_clamp.2 progressFrame150 false initialAppState 150
    (by decide) rfl (fun s h => Option.noConfusion h) rfl (by norm_num) (by norm_num)).2.2.2.2.2
    (by norm_num)

/-! ## C2 -/

/-- C2 counterexample: the claim quantifies over every download-class
frame with a cancelled status, but a frame also carrying the
queue-completion flag ends with progress forced to 100, not 0: the
`queue_finished` branch runs after the cancellation reset. -/
theorem cancel_frame_queue_overrides_reset :
    containsCI "Download cancelado" "cancelad" = true
    ∧ cancelQueueFrame.task ≠ some "compressor"
    ∧ cancelQueueFrame.status = some "Download cancelado"
    ∧ (processFrame cancelQueueFrame false initialAppState).1.dl.progress = 100 := by
  refine ⟨by decide, by decide, rfl, by decide⟩

/-- C2 (amended): for every download-class frame whose status matches the
cancelled pattern and which does not carry the queue-completion flag, the
processed state has busy off, progress 0 and the pending result cleared —
even when the same frame carries a numeric progress field — and the
status text is overwritten by the frame's status. -/
theorem cancel_frame_forces_cancelled :
    ∀ (f : Frame) (isBatchMode : Bool) (st : AppState) (s : String),
      f.task ≠ some "compressor" →
      f.status = some s →
      containsCI s "cancelad" = true →
      f.queue_finished = false →
      (processFrame f isBatchMode st).1.dl.busy = false
      ∧ (processFrame f isBatchMode st).1.dl.progress = 0
      ∧ (processFrame f isBatchMode st).1.dl.savedPath = none
      ∧ (processFrame f isBatchMode st).1.dl.status = s := by
  intro f isBatchMode st s htask hstatus hcancel hqf
  have hs : s ≠ "" := by
    intro he
    rw [he] at hcancel
    exact absurd hcancel (by simp [containsCI_empty_cancelad])
  have hcc : ∀ st' : DownloadSlice,
      applyCancelCheck f st' =
        { st' with busy := false, progress := 0, savedPath := none } := by
    intro st'
    simp [applyCancelCheck, hstatus, optStrTruthy, hs, hcancel]
  have hst : ∀ st' : DownloadSlice,
      (applyStatusText f st').status = s := by
    intro st'
    simp [applyStatusText, hstatus, optStrTruthy, hs]
  rw [processFrame_dl f isBatchMode st htask, applyQueueFinished_noop _ _ hqf, hcc]
  refine ⟨rfl, rfl, rfl, ?_⟩
  simp [hst]

/-- C2 witness: a frame carrying both the cancelled status and
`progress = 55` ends at progress 0 with busy off and no pending result. -/
theorem cancel_frame_forces_cancelled_witness :
    (processFrame cancelProgressFrame false initialAppState).1.dl.progress = 0
    ∧ (processFrame cancelProgressFrame false initialAppState).1.dl.busy = false
    ∧ (processFrame cancelProgressFrame false initialAppState).1.dl.savedPath = none :=
  have h := cancel_frame_forces_cancelled cancelProgressFrame false initialAppState
    "Download cancelado" (by decide) rfl (by decide) rfl
  ⟨h.2.1, h.1, h.2.2.1⟩

/-! ## C9 -/

/-- C9: whenever the active single-mode link classifies to a provider in
the locked subset (instagram, facebook, twitter), the forcing effect
rewrites the options to format "mp4", resolution "best" and quality 192,
whatever the stored preference was; the effect is idempotent (it holds for
as long as the link is active), the locked subset is exactly
{instagram, facebook, twitter}, and the outgoing request options preserve
the forced values. -/
theorem locked_provider_forces_options :
    (∀ (url : String) (o : OptionsState),
      lockedProvider (linkProviderOf false url) = true →
      applyLockedOptions (linkProviderOf false url) o =
        { format := "mp4", quality := 192, resolution := "best" })
    ∧ (∀ (p : Option String) (o : OptionsState),
      applyLockedOptions p (applyLockedOptions p o) = applyLockedOptions p o)
    ∧ lockedProvider (some "instagram") = true
    ∧ lockedProvider (some "facebook") = true
    ∧ lockedProvider (some "twitter") = true
    ∧ lockedProvider (some "youtube") = false
    ∧ lockedProvider (some "dailymotion") = false
    ∧ lockedProvider none = false
    ∧ detectProvider "https://www.instagram.com/p/abc123/" = some "instagram"
    ∧ detectProvider "https://x.com/u/status/1" = some "twitter"
    ∧ getOptions { format := "mp4", quality := 192, resolution := "best" } =
        { format := "mp4", quality := 192, resolution := "best" } := by
  refine ⟨?_, ?_, by decide, by decide, by decide, by decide, by decide, by decide,
    by decide, by decide, by decide⟩
  · intro url o h
    simp only [applyLockedOptions, h, if_true]
    split_ifs <;> simp_all
  · intro p o
    by_cases h : lockedProvider p = true
    · simp only [applyLockedOptions, h, if_true]
      split_ifs <;> simp_all
    · simp only [Bool.not_eq_true] at h
      simp [applyLockedOptions, h]

/-- C9 witness: an Instagram link forces stored preferences
(mp3, 320, 1080p) to (mp4, 192, best). -/
theorem locked_provider_forces_options_witness :
    applyLockedOptions (linkProviderOf false "https://www.instagram.com/p/abc123/")
        { format := "mp3", quality := 320, resolution := "1080p" } =
      { format := "mp4", quality := 192, resolution := "best" } :=
  locked_provider_forces_options.1 "https://www.instagram.com/p/abc123/"
    { format := "mp3", quality := 320, resolution := "1080p" } (by decide)

/-! ## C8 -/

/-- C8 counterexample: the claim says cancel does not itself change
JobState (phase, progress, status text or result), but a successful
`cancelDownload` overwrites the download status text with
"Cancelando...". -/
theorem cancel_changes_status_text :
    runningAppState.dl.status = "Baixando..."
    ∧ (cancelDownload true runningAppState).1.dl.status = "Cancelando..."
    ∧ (cancelDownload true runningAppState).1 ≠ runningAppState := by
  refine ⟨rfl, rfl, by decide⟩

/-- C8 (amended): cancel issues exactly one cancel command and leaves
progress, busy flag and pending result of both job kinds unchanged, and
the other kind's slice entirely unchanged; the only JobState field it
touches is the status text of its own kind, overwritten with a
"cancelling" message when the command succeeds. -/
theorem cancel_amended :
    ∀ (ok : Bool) (st : AppState),
      (cancelDownload ok st).2.1 = [Req.cancel]
      ∧ (cancelDownload ok st).1.dl.progress = st.dl.progress
      ∧ (cancelDownload ok st).1.dl.busy = st.dl.busy
      ∧ (cancelDownload ok st).1.dl.savedPath = st.dl.savedPath
      ∧ (cancelDownload ok st).1.comp = st.comp
      ∧ (cancelDownload ok st).1.dl.status = (if ok then "Cancelando..." else st.dl.status)
      ∧ (cancelCompression ok st).2.1 = [Req.cancel]
      ∧ (cancelCompression ok st).1.comp.progress = st.comp.progress
      ∧ (cancelCompression ok st).1.comp.busy = st.comp.busy
      ∧ (cancelCompression ok st).1.comp.result = st.comp.result
      ∧ (cancelCompression ok st).1.dl = st.dl
      ∧ (cancelCompression ok st).1.comp.status =
          (if ok then "Cancelando compressão..." else st.comp.status) := by
  intro ok st
  cases ok <;> simp [cancelDownload, cancelCompression]

/-! ## C10 -/

/-- C10: the link input is cleared exactly when a single-mode start is
accepted by the backend: `url` becomes `""` iff the job was not already
active, batch mode is off, the trimmed URL is non-empty, the directory
selection returned a directory and the `/download` request succeeded; in
every other case (validation failure, refused directory, failed request,
batch mode) the field keeps its previous value. -/
theorem url_cleared_iff_start_accepted :
    ∀ (dirResp : DirResp) (promptResp : Option String) (startOk : Bool) (st : UiState),
      (startDownload dirResp promptResp startOk st).st.url =
        if isDownloading st = false ∧ st.isBatchMode = false ∧ jsTrim st.url ≠ ""
            ∧ (dirOf dirResp).isSome = true ∧ startOk = true
        then "" else st.url := by
  intro dirResp promptResp startOk st
  by_cases hdl : isDownloading st = true
  · simp [startDownload, hdl]
  · simp only [Bool.not_eq_true] at hdl
    cases dirResp with
    | httpError =>
      simp [startDownload, hdl, chooseSaveDir, dirOf]
    | okNone =>
      simp [startDownload, hdl, chooseSaveDir, dirOf]
    | okDir d =>
      by_cases hd : d = ""
      · simp [startDownload, hdl, chooseSaveDir, dirOf, hd]
      · by_cases hb : st.isBatchMode = true
        · by_cases hu : parseUrlsFromText st.batchUrls = []
          · simp [startDownload, hdl, chooseSaveDir, dirOf, hd, hb, hu]
          · cases startOk <;>
              simp [startDownload, hdl, chooseSaveDir, dirOf, hd, hb, hu]
        · simp only [Bool.not_eq_true] at hb
          by_cases hu : jsTrim st.url = ""
          · simp [startDownload, hdl, chooseSaveDir, dirOf, hd, hb, hu]
          · cases startOk <;>
              simp [startDownload, hdl, chooseSaveDir, dirOf, hd, hb, hu]

/-! ## C6 -/

/-- C6 counterexample: with an empty URL in single mode the start flow
still issues `POST /select-dir` before surfacing the validation message,
contradicting "aborts before any backend contact (no HTTP request of any
kind)". -/
theorem start_validation_after_selectdir :
    isDownloading idleUiState = false
    ∧ jsTrim idleUiState.url = ""
    ∧ (startDownload (DirResp.okDir "C:/out") none true idleUiState).reqs = [Req.selectDir]
    ∧ (startDownload (DirResp.okDir "C:/out") none true idleUiState).notes
        = ["Cole um link válido!"] := by
  refine ⟨rfl, rfl, by decide, by decide⟩

/-- C6 (amended): while a download is active, start-download is a strict
no-op (no request, no message, no state change); when the required input
is absent (empty trimmed URL in single mode, no extracted URL in batch
mode) it surfaces the corresponding validation message and issues no
start command — the only request already issued at that point is the
directory selection (`POST /select-dir`), which precedes the validation
check; a refused directory likewise ends the flow with the selection
request as the only one issued. -/
theorem start_validation_amended :
    (∀ (dirResp : DirResp) (promptResp : Option String) (startOk : Bool) (st : UiState),
      isDownloading st = true →
      startDownload dirResp promptResp startOk st = ⟨st, [], []⟩)
    ∧ (∀ (dirResp : DirResp) (promptResp : Option String) (startOk : Bool) (st : UiState) (d : String),
      isDownloading st = false → st.isBatchMode = false → jsTrim st.url = "" →
      dirOf dirResp = some d →
      (startDownload dirResp promptResp startOk st).reqs = [Req.selectDir]
      ∧ "Cole um link válido!" ∈ (startDownload dirResp promptResp startOk st).notes)
    ∧ (∀ (dirResp : DirResp) (promptResp : Option String) (startOk : Bool) (st : UiState) (d : String),
      isDownloading st = false → st.isBatchMode = true →
      parseUrlsFromText st.batchUrls = [] →
      dirOf dirResp = some d →
      (startDownload dirResp promptResp startOk st).reqs = [Req.selectDir]
      ∧ "Cole links válidos na área de texto!" ∈ (startDownload dirResp promptResp startOk st).notes)
    ∧ (∀ (dirResp : DirResp) (promptResp : Option String) (startOk : Bool) (st : UiState),
      dirOf dirResp = none →
      (startDownload dirResp promptResp startOk st).reqs = [Req.selectDir]
      ∨ (startDownload dirResp promptResp startOk st).reqs = []) := by
  refine ⟨?_, ?_, ?_, ?_⟩
  · intro dirResp promptResp startOk st h
    simp [startDownload, h]
  · intro dirResp promptResp startOk st d h1 h2 h3 h4
    cases dirResp with
    | httpError => simp [dirOf] at h4
    | okNone => simp [dirOf] at h4
    | okDir d' =>
      by_cases hd : d' = ""
      · simp [dirOf, hd] at h4
      · simp [startDownload, h1, h2, h3, chooseSaveDir, hd]
  · intro dirResp promptResp startOk st d h1 h2 h3 h4
    cases dirResp with
    | httpError => simp [dirOf] at h4
    | okNone => simp [dirOf] at h4
    | okDir d' =>
      by_cases hd : d' = ""
      · simp [dirOf, hd] at h4
      · simp [startDownload, h1, h2, h3, chooseSaveDir, hd]
  · intro dirResp promptResp startOk st h
    by_cases hdl : isDownloading st = true
    · right; simp [startDownload, hdl]
    · left
      simp only [Bool.not_eq_true] at hdl
      cases dirResp with
      | httpError => simp [startDownload, hdl, chooseSaveDir]
      | okNone => simp [startDownload, hdl, chooseSaveDir]
      | okDir d' =>
        by_cases hd : d' = ""
        · simp [startDownload, hdl, chooseSaveDir, hd]
        · simp [dirOf, hd] at h

/-- C6 witness: the amended validation contract applied at the concrete
idle single-mode state with an accepted directory. -/
theorem start_validation_amended_witness :
    (startDownload (DirResp.okDir "D:/media") none true idleUiState).reqs = [Req.selectDir]
    ∧ "Cole um link válido!" ∈ (startDownload (DirResp.okDir "D:/media") none true idleUiState).notes :=
  start_validation_amended.2.1 (DirResp.okDir "D:/media") none true idleUiState "D:/media"
    rfl rfl rfl (by decide)

/-! ## C7 -/

/-- C7 counterexample: a tick whose changed raw text yields an
allow-listed link equal to the link already in the input field still
updates `lastExtractedLink` (the field comparison only gates the field
write, which is skipped: the output is `none`), contradicting "updated
only when ... distinct from both the previously extracted link and the
link currently in the input field". -/
theorem clipboard_link_update_field_held :
    pollClipboard true false true true { raw := "", link := "" } "https://youtu.be/abc"
        (Except.ok "https://youtu.be/abc")
      = ({ raw := "https://youtu.be/abc", link := "https://youtu.be/abc" }, none) := by
  decide

/-- C7 (amended): on each poll tick, `lastExtractedLink` is updated
exactly when a changed non-empty trimmed raw text yields an allow-listed
link distinct from the previously extracted link — the input-field
comparison gates only the field write, not the link update.  The watcher
surfaces a link only when it differs from the previous extracted link and
from the input field's content (so it never overwrites a field already
holding that exact link), a tick with unchanged or empty raw text changes
nothing (hence the same link is never surfaced twice in a row across
unchanged raw text), and gated ticks and failed clipboard reads change
nothing. -/
theorem clipboard_watcher_invariants :
    (∀ (cs : ClipRef) (field text : String), jsTrim text = cs.raw →
      pollClipboardCore cs field text = (cs, none))
    ∧ (∀ (cs : ClipRef) (field text : String), jsTrim text = "" →
      pollClipboardCore cs field text = (cs, none))
    ∧ (∀ (cs : ClipRef) (field text : String),
      (pollClipboardCore cs field text).1.link ≠ cs.link →
      jsTrim text ≠ "" ∧ jsTrim text ≠ cs.raw
      ∧ (parseUrlsFromText (jsTrim text)).find? allowedHostsTest
          = some ((pollClipboardCore cs field text).1.link)
      ∧ allowedHostsTest ((pollClipboardCore cs field text).1.link) = true)
    ∧ (∀ (cs : ClipRef) (field text m : String),
      (pollClipboardCore cs field text).2 = some m →
      m ≠ cs.link ∧ m ≠ "" ∧ field ≠ m
      ∧ (pollClipboardCore cs field text).1.link = m
      ∧ (pollClipboardCore cs field text).1.raw = jsTrim text)
    ∧ (∀ (v b vis foc : Bool) (cs : ClipRef) (field : String) (fe : Except String String),
      (v = false ∨ b = true ∨ vis = false ∨ foc = false) →
      pollClipboard v b vis foc cs field fe = (cs, none))
    ∧ (∀ (e : String) (cs : ClipRef) (field : String),
      pollClipboard true false true true cs field (Except.error e) = (cs, none)) := by
  refine ⟨?_, ?_, ?_, ?_, ?_, ?_⟩
  · intro cs field text h
    rw [pollClipboardCore, if_pos (Or.inr h)]
  · intro cs field text h
    rw [pollClipboardCore, if_pos (Or.inl h)]
  · intro cs field text h
    by_cases h1 : jsTrim text = "" ∨ jsTrim text = cs.raw
    · rw [pollClipboardCore, if_pos h1] at h
      exact absurd rfl h
    · push_neg at h1
      refine ⟨h1.1, h1.2, ?_⟩
      rw [pollClipboardCore, if_neg (by push_neg; exact h1)] at h ⊢
      cases hf : (parseUrlsFromText (jsTrim text)).find? allowedHostsTest with
      | none =>
        rw [hf] at h
        exact absurd rfl h
      | some m =>
        rw [hf] at h
        dsimp only at h ⊢
        by_cases hl : cs.link = m
        · rw [if_pos hl] at h
          exact absurd rfl h
        · rw [if_neg hl] at h ⊢
          have hm : allowedHostsTest m = true := List.find?_some hf
          by_cases hfield : field ≠ "" ∧ field = m
          · rw [if_pos hfield]
            exact ⟨rfl, hm⟩
          · rw [if_neg hfield]
            exact ⟨rfl, hm⟩
  · intro cs field text m h
    by_cases h1 : jsTrim text = "" ∨ jsTrim text = cs.raw
    · rw [pollClipboardCore, if_pos h1] at h
      exact Option.noConfusion h
    · rw [pollClipboardCore, if_neg h1] at h ⊢
      cases hf : (parseUrlsFromText (jsTrim text)).find? allowedHostsTest with
      | none =>
        rw [hf] at h
        exact Option.noConfusion h
      | some m' =>
        rw [hf] at h
        dsimp only at h ⊢
        by_cases hl : cs.link = m'
        · rw [if_pos hl] at h
          exact Option.noConfusion h
        · rw [if_neg hl] at h ⊢
          by_cases hfield : field ≠ "" ∧ field = m'
          · rw [if_pos hfield] at h
            exact Option.noConfusion h
          · rw [if_neg hfield] at h ⊢
            have hmm : m' = m := Option.some.inj h
            subst hmm
            have hmne : m' ≠ "" := by
              intro he
              have hall : allowedHostsTest m' = true := List.find?_some hf
              rw [he] at hall
              exact absurd hall (by decide)
            refine ⟨fun he => hl he.symm, hmne, ?_, rfl, rfl⟩
            intro hfe
            rcases not_and_or.1 hfield with hc | hc
            · push_neg at hc
              rw [hc] at hfe
              exact hmne hfe.symm
            · exact hc hfe
  · intro v b vis foc cs field fe h
    cases v <;> cases b <;> cases vis <;> cases foc <;>
      first
      | rfl
      | (rcases h with h | h | h | h <;> exact Bool.noConfusion h)
  · intro e cs field
    rfl

/-- C7 witness: the surfacing contract applied at a concrete tick that
does surface a link. -/
theorem clipboard_watcher_invariants_witness :
    "https://youtu.be/abc" ≠ ClipRef.link { raw := "", link := "" }
    ∧ "https://youtu.be/abc" ≠ ""
    ∧ "x" ≠ "https://youtu.be/abc"
    ∧ (pollClipboardCore { raw := "", link := "" } "x" "https://youtu.be/abc").1.link
        = "https://youtu.be/abc"
    ∧ (pollClipboardCore { raw := "", link := "" } "x" "https://youtu.be/abc").1.raw
        = jsTrim "https://youtu.be/abc" :=
  clipboard_watcher_invariants.2.2.2.1 { raw := "", link := "" } "x"
    "https://youtu.be/abc" "https://youtu.be/abc" (by decide)

/-! ## Additional scenario checks from the specification -/

/-- The classifier, sanitizer and URL-scan scenarios stated in the
specification's testable properties. -/
theorem classifier_and_sanitizer_scenarios :
    detectProvider "https://www.instagram.com/p/abc123/" = some "instagram"
    ∧ detectProvider "https://x.com/u/status/1" = some "twitter"
    ∧ detectProvider "https://youtu.be/abc" = some "youtube"
    ∧ detectProvider "https://example.org/v" = none
    ∧ sanitizeCustomName "My: Video? <final>." = some "My Video final"
    ∧ parseUrlsFromText "a https://youtu.be/abc b" = ["https://youtu.be/abc"] := by
  decide
